import Mathlib

/-!
Verification of `src/Figure4/process_personalization_truthset_graph_vcf.py`,
a one-pass filter that reads a VCF-like tab-separated line stream and, for
each variant line, emits allele-length statistics and the six pairwise
genotype comparisons among four haplotype sample columns.

A Python `str` is modelled as a `List Char` (a sequence of Unicode code
points), written `Str` below.  Python exceptions are modelled by the
`PyErr` type; a raised exception aborts the processing of the remaining
lines, exactly as an uncaught exception aborts the Python loop.  The output
file is modelled as the list of rows written so far (each row a list of
fields; the `csv` writer stringifies integers with `str`, modelled with
`Nat.repr` / `Int.repr`).
-/

abbrev Str := List Char

/-- Python `str.strip()` whitespace: the characters for which `str.isspace()`
holds (ASCII whitespace, the separator control characters, NEL, and the
Unicode space characters). -/
def pyIsSpace (c : Char) : Bool :=
  c = ' ' || c = '\t' || c = '\n' || c = '\r' || c = '\x0b' || c = '\x0c' ||
  c = '\x1c' || c = '\x1d' || c = '\x1e' || c = '\x1f' || c = '\u0085' ||
  c = ' ' || c = ' ' ||
  (0x2000 ≤ c.toNat && c.toNat ≤ 0x200a) ||
  c = ' ' || c = ' ' || c = ' ' || c = ' ' || c = '　'

/-- Python `line.strip()`: remove leading and trailing whitespace. -/
def pyStrip (s : Str) : Str :=
  ((s.dropWhile pyIsSpace).reverse.dropWhile pyIsSpace).reverse

/-- Python `s.split(sep)` for a one-character separator: split at every
occurrence of `sep`, keeping empty fields (`"".split(sep) == [""]`). -/
def pySplit (sep : Char) : Str → List Str
  | [] => [[]]
  | c :: rest =>
    let r := pySplit sep rest
    if c = sep then [] :: r
    else
      match r with
      | [] => [[c]]
      | f :: fs => (c :: f) :: fs

/-- `compare_genotypes` from the source: classify a pair of genotype tokens.
`'0'`: both missing; `'2'`: one missing; `'1'`: same; `'3'`: different. -/
def compare_genotypes (gt1 gt2 : Str) : Str :=
  if gt1 = ['.'] ∧ gt2 = ['.'] then ['0']
  else if gt1 = ['.'] ∨ gt2 = ['.'] then ['2']
  else if gt1 = gt2 then ['1']
  else ['3']

/-- The Python exceptions the script can raise while processing a line. -/
inductive PyErr where
  | valueError : Str → PyErr
  | indexError : PyErr
  | typeError : PyErr
deriving DecidableEq

/-- The message of the `ValueError` raised on a wrong sample-column count:
`"Expected exactly 4 sample columns, but found {}.".format(n)`. -/
def expectedMsg (n : Nat) : Str :=
  "Expected exactly 4 sample columns, but found ".data ++
    (Nat.repr n).data ++ ".".data

/-- Python `parts[i]`: the field at index `i`, or an `IndexError`. -/
def getField (parts : List Str) (i : Nat) : Except PyErr Str :=
  match parts[i]? with
  | some f => .ok f
  | none => .error .indexError

/-- The genotype-extraction loop: for each recorded index, take the sample
field and keep its first colon-delimited subfield. -/
def extractHaplotypes (parts : List Str) : List Nat → Except PyErr (List Str)
  | [] => .ok []
  | idx :: rest => do
    let f ← getField parts idx
    let gt := (pySplit ':' f).headD []
    let hs ← extractHaplotypes parts rest
    pure (gt :: hs)

/-- Python `max` on a list of naturals.  In the script it is only applied to
the list of ALT-allele lengths, which `split(',')` guarantees nonempty, so
the `[]` case is never reached. -/
def maxOfList : List Nat → Nat
  | [] => 0
  | x :: xs => xs.foldl Nat.max x

/-- Processing of one variant (data) line, already split into tab fields,
given the current sample-column mapping (`none` before the header has been
seen, in which case Python's `for idx in None` raises a `TypeError` after
the leading fields have been read). -/
def processData (st : Option (List Nat)) (parts : List Str) :
    Except PyErr (Option (List Nat) × Option (List Str)) := do
  let chrom ← getField parts 0
  let pos ← getField parts 1
  let ref ← getField parts 3
  let alt ← getField parts 4
  let refLen := ref.length
  let altAlleles := pySplit ',' alt
  let altLengths := altAlleles.map List.length
  let altLengthsStr := List.intercalate [','] (altLengths.map (fun l => (Nat.repr l).data))
  let maxAltLength := maxOfList altLengths
  let deltaLen : Int := (maxAltLength : Int) - (refLen : Int)
  match st with
  | none => .error .typeError
  | some idxs => do
    let haplotypes ← extractHaplotypes parts idxs
    match haplotypes with
    | [h1, h2, h3, h4] =>
      .ok (st, some [chrom, pos, (Nat.repr refLen).data, altLengthsStr,
        (Int.repr deltaLen).data,
        compare_genotypes h1 h2, compare_genotypes h1 h3,
        compare_genotypes h1 h4, compare_genotypes h2 h3,
        compare_genotypes h2 h4, compare_genotypes h3 h4])
    | _ => .error (.valueError "unpack".data)

/-- One iteration of the main loop on a raw input line: strip, skip empty
and `##` lines, handle the `#CHROM` header (record `range(9, len(parts))`
as the sample indices and demand exactly 4), otherwise process a data line.
Returns the new mapping state and the row written, if any. -/
def stepLine (st : Option (List Nat)) (rawLine : Str) :
    Except PyErr (Option (List Nat) × Option (List Str)) :=
  let line := pyStrip rawLine
  if line = [] then .ok (st, none)
  else if "##".data.isPrefixOf line then .ok (st, none)
  else if "#CHROM".data.isPrefixOf line then
    let parts := pySplit '\t' line
    let sampleIndices := List.range' 9 (parts.length - 9)
    if sampleIndices.length = 4 then .ok (some sampleIndices, none)
    else .error (.valueError (expectedMsg sampleIndices.length))
  else
    processData st (pySplit '\t' line)

/-- The main loop over the line stream: the rows written (in order) and the
exception that aborted the run, if any.  Rows written before an exception
are kept, matching what is in the output file when the script dies. -/
def processLines (st : Option (List Nat)) : List Str → List (List Str) × Option PyErr
  | [] => ([], none)
  | l :: ls =>
    match stepLine st l with
    | .error e => ([], some e)
    | .ok (st2, none) => processLines st2 ls
    | .ok (st2, some row) =>
      match processLines st2 ls with
      | (rows, err) => (row :: rows, err)

/-- The fixed output header row, written before the loop starts. -/
def outHeader : List Str :=
  ["CHROM".data, "POS".data, "REF.Length".data, "ALT.Length".data,
   "DELTA.Length".data, "h1_h2".data, "h1_h3".data, "h1_h4".data,
   "h2_h3".data, "h2_h4".data, "h3_h4".data]

/-- The whole run of `main` on a decompressed line stream: the header row
followed by the rows the loop wrote, and the aborting exception if any. -/
def run (lines : List Str) : List (List Str) × Option PyErr :=
  match processLines none lines with
  | (rows, err) => (outHeader :: rows, err)

/-- A line the loop treats as a variant (data) line: nonempty after
stripping, and starting with neither `##` nor `#CHROM`. -/
def isDataLine (l : Str) : Bool :=
  !((pyStrip l).isEmpty) && !("##".data.isPrefixOf (pyStrip l)) &&
    !("#CHROM".data.isPrefixOf (pyStrip l))

/-- The genotype token a data line yields for sample-column index `i`:
first colon-delimited subfield of the `i`-th tab field. -/
def gtAt (parts : List Str) (i : Nat) : Str :=
  (pySplit ':' (parts.getD i [])).headD []

/-- The list of ALT-allele lengths of an ALT field: split on comma, length
of each allele string, in original order. -/
def altLengthsOf (alt : Str) : List Nat :=
  (pySplit ',' alt).map List.length

/-- The row the script writes for a data line already split into tab
fields, with recorded sample indices `i1 i2 i3 i4`: CHROM, POS, REF length,
comma-joined ALT lengths, delta length, then the six pairwise codes. -/
def mkRow (parts : List Str) (i1 i2 i3 i4 : Nat) : List Str :=
  [parts.getD 0 [], parts.getD 1 [],
   (Nat.repr (parts.getD 3 []).length).data,
   List.intercalate [','] ((altLengthsOf (parts.getD 4 [])).map (fun l => (Nat.repr l).data)),
   (Int.repr ((maxOfList (altLengthsOf (parts.getD 4 [])) : Int) -
     ((parts.getD 3 []).length : Int))).data,
   compare_genotypes (gtAt parts i1) (gtAt parts i2),
   compare_genotypes (gtAt parts i1) (gtAt parts i3),
   compare_genotypes (gtAt parts i1) (gtAt parts i4),
   compare_genotypes (gtAt parts i2) (gtAt parts i3),
   compare_genotypes (gtAt parts i2) (gtAt parts i4),
   compare_genotypes (gtAt parts i3) (gtAt parts i4)]

lemma meta_marker_data : "##".data = ['#', '#'] := rfl

lemma header_marker_data : "#CHROM".data = ['#', 'C', 'H', 'R', 'O', 'M'] := rfl

/-- `pySplit` never returns the empty list of fields. -/
lemma pySplit_ne_nil (sep : Char) (s : Str) : pySplit sep s ≠ [] := by
  cases s with
  | nil => simp [pySplit]
  | cons c rest =>
    simp only [pySplit]
    split
    · simp
    · cases pySplit sep rest <;> simp

/-- A line that starts with `#CHROM` after stripping does not start with
`##` and is not empty. -/
lemma header_line_class {t : Str} (h : "#CHROM".data <+: t) :
    ¬ ("##".data <+: t) ∧ t ≠ [] := by
  rw [header_marker_data] at h
  obtain ⟨u, rfl⟩ := h
  refine ⟨fun hm => ?_, by simp⟩
  rw [meta_marker_data] at hm
  simp [List.cons_prefix_cons] at hm

/-- A stripped line that is empty or starts with `##` is skipped: the state
is unchanged and no row is written. -/
lemma stepLine_skip (st : Option (List Nat)) (l : Str)
    (h : pyStrip l = [] ∨ "##".data <+: pyStrip l) :
    stepLine st l = .ok (st, none) := by
  rcases h with h | h
  · simp [stepLine, h]
  · have hne : pyStrip l ≠ [] := by
      obtain ⟨u, hu⟩ := h
      rw [meta_marker_data] at hu
      intro he
      rw [he] at hu
      simp at hu
    have hpe : "##".data.isPrefixOf (pyStrip l) = true := by
      simpa [ List.isPrefixOf_iff_prefix] using h
    simp [stepLine, hne, hpe]

/-- A stripped line that starts with `#CHROM` takes the header branch. -/
lemma stepLine_header (st : Option (List Nat)) (l : Str)
    (h : "#CHROM".data <+: pyStrip l) :
    stepLine st l =
      (if (List.range' 9 ((pySplit '\t' (pyStrip l)).length - 9)).length = 4 then
        .ok (some (List.range' 9 ((pySplit '\t' (pyStrip l)).length - 9)), none)
      else
        .error (.valueError (expectedMsg
          (List.range' 9 ((pySplit '\t' (pyStrip l)).length - 9)).length))) := by
  obtain ⟨hm, hne⟩ := header_line_class h
  have hpm : "##".data.isPrefixOf (pyStrip l) = false := by
    simpa [ List.isPrefixOf_iff_prefix, Bool.eq_false_iff] using hm
  have hph : "#CHROM".data.isPrefixOf (pyStrip l) = true := by
    simpa [ List.isPrefixOf_iff_prefix] using h
  simp [stepLine, hne, hpm, hph]

/-- A data line (nonempty after stripping, starting with neither `##` nor
`#CHROM`) is handed to `processData` on its tab fields. -/
lemma stepLine_data (st : Option (List Nat)) (l : Str)
    (hne : pyStrip l ≠ []) (hm : ¬ ("##".data <+: pyStrip l))
    (hh : ¬ ("#CHROM".data <+: pyStrip l)) :
    stepLine st l = processData st (pySplit '\t' (pyStrip l)) := by
  have hpm : "##".data.isPrefixOf (pyStrip l) = false := by
    simpa [ List.isPrefixOf_iff_prefix, Bool.eq_false_iff] using hm
  have hph : "#CHROM".data.isPrefixOf (pyStrip l) = false := by
    simpa [ List.isPrefixOf_iff_prefix, Bool.eq_false_iff] using hh
  simp [stepLine, hne, hpm, hph]

@[simp] lemma exceptBind_ok {α β ε : Type} (a : α) (f : α → Except ε β) :
    (Except.ok a >>= f) = f a := rfl

@[simp] lemma exceptBind_err {α β ε : Type} (e : ε) (f : α → Except ε β) :
    ((Except.error e : Except ε α) >>= f) = Except.error e := rfl

@[simp] lemma exceptMap_ok {α β ε : Type} (f : α → β) (a : α) :
    (f <$> (Except.ok a : Except ε α)) = Except.ok (f a) := rfl

@[simp] lemma exceptMap_err {α β ε : Type} (f : α → β) (e : ε) :
    (f <$> (Except.error e : Except ε α)) = Except.error e := rfl

@[simp] lemma exceptPure {α ε : Type} (a : α) :
    (pure a : Except ε α) = Except.ok a := rfl

/-- A true `!isPrefixOf` test refutes the prefix relation. -/
lemma not_prefix_of_bnot {l1 l2 : Str} (h : (!(l1.isPrefixOf l2)) = true) :
    ¬ (l1 <+: l2) := by
  intro hp
  rw [← List.isPrefixOf_iff_prefix] at hp
  simp [hp] at h

/-- A true `!isEmpty` test gives a nonempty list. -/
lemma ne_nil_of_bnot {l : Str} (h : (!(l.isEmpty)) = true) : l ≠ [] := by
  intro he
  subst he
  simp at h

/-- In-range field access succeeds with the field itself. -/
lemma getField_ok {parts : List Str} {i : Nat} (h : i < parts.length) :
    getField parts i = .ok (parts.getD i []) := by
  simp [getField, List.getElem?_eq_getElem h, List.getD_eq_getElem?_getD,
    List.getElem?_eq_getElem h]

/-- Out-of-range field access raises `IndexError`. -/
lemma getField_err {parts : List Str} {i : Nat} (h : parts.length ≤ i) :
    getField parts i = .error .indexError := by
  simp [getField, List.getElem?_eq_none h]

/-- When every recorded index is in range, the extraction loop returns the
first colon-delimited subfield of each recorded sample column, in order. -/
lemma extractHaplotypes_ok (parts : List Str) : ∀ (idxs : List Nat),
    (∀ i ∈ idxs, i < parts.length) →
    extractHaplotypes parts idxs = .ok (idxs.map (gtAt parts)) := by
  intro idxs
  induction idxs with
  | nil => intro _; simp [extractHaplotypes]
  | cons i rest ih =>
    intro h
    have hi : i < parts.length := h i (by simp)
    rw [extractHaplotypes]
    simp [getField_ok hi, ih (fun j hj => h j (by simp [hj])), gtAt]

/-- When some recorded index is out of range, the extraction loop raises
`IndexError`. -/
lemma extractHaplotypes_err (parts : List Str) : ∀ {idxs : List Nat},
    (∃ i ∈ idxs, parts.length ≤ i) →
    extractHaplotypes parts idxs = .error .indexError := by
  intro idxs
  induction idxs with
  | nil => intro h; simp at h
  | cons i rest ih =>
    intro h
    by_cases hi : i < parts.length
    · rcases h with ⟨j, hj, hlen⟩
      rcases List.mem_cons.mp hj with rfl | hjr
      · omega
      · rw [extractHaplotypes]
        simp [getField_ok hi, ih ⟨j, hjr, hlen⟩]
    · rw [extractHaplotypes]
      simp [getField_err (Nat.le_of_not_lt hi)]

/-- A data line reached before any header (`sample_indices` still `None`)
always raises: an `IndexError` on a short line, else the `TypeError` from
iterating over `None`. -/
lemma processData_none_err (parts : List Str) :
    ∃ e, processData none parts = .error e := by
  cases h0 : getField parts 0 with
  | error e => exact ⟨e, by simp [processData, h0]⟩
  | ok f0 =>
    cases h1 : getField parts 1 with
    | error e => exact ⟨e, by simp [processData, h0, h1]⟩
    | ok f1 =>
      cases h3 : getField parts 3 with
      | error e => exact ⟨e, by simp [processData, h0, h1, h3]⟩
      | ok f3 =>
        cases h4 : getField parts 4 with
        | error e => exact ⟨e, by simp [processData, h0, h1, h3, h4]⟩
        | ok f4 => exact ⟨.typeError, by simp [processData, h0, h1, h3, h4]⟩

/-- Whatever `processData` returns successfully, the mapping state is
unchanged and exactly one 11-field row is produced. -/
lemma processData_ok_shape {st : Option (List Nat)} {parts : List Str}
    {st2 : Option (List Nat)} {r : Option (List Str)}
    (h : processData st parts = .ok (st2, r)) :
    st2 = st ∧ ∃ row, r = some row ∧ row.length = 11 := by
  simp only [processData, bind, Except.bind] at h
  repeat' split at h
  all_goals simp_all
  all_goals simp [← h.1, ← h.2]

/-- With all required positions present, `processData` writes `mkRow`. -/
lemma processData_ok (parts : List Str) (i1 i2 i3 i4 : Nat)
    (h5 : 5 ≤ parts.length)
    (hi1 : i1 < parts.length) (hi2 : i2 < parts.length)
    (hi3 : i3 < parts.length) (hi4 : i4 < parts.length) :
    processData (some [i1, i2, i3, i4]) parts =
      .ok (some [i1, i2, i3, i4], some (mkRow parts i1 i2 i3 i4)) := by
  have h0 : getField parts 0 = .ok (parts.getD 0 []) := getField_ok (by omega)
  have h1 : getField parts 1 = .ok (parts.getD 1 []) := getField_ok (by omega)
  have h3 : getField parts 3 = .ok (parts.getD 3 []) := getField_ok (by omega)
  have h4 : getField parts 4 = .ok (parts.getD 4 []) := getField_ok (by omega)
  have hx : extractHaplotypes parts [i1, i2, i3, i4] =
      .ok [gtAt parts i1, gtAt parts i2, gtAt parts i3, gtAt parts i4] := by
    have := extractHaplotypes_ok parts [i1, i2, i3, i4]
      (by intro j hj; simp at hj; rcases hj with rfl | rfl | rfl | rfl <;> assumption)
    simpa using this
  simp [processData, h0, h1, h3, h4, hx, mkRow, altLengthsOf]

/-- Missing leading fields or a missing recorded sample column make
`processData` raise. -/
lemma processData_err_of_missing (idxs : List Nat) (parts : List Str)
    (h : parts.length < 5 ∨ ∃ i ∈ idxs, parts.length ≤ i) :
    ∃ e, processData (some idxs) parts = .error e := by
  cases h0 : getField parts 0 with
  | error e => exact ⟨e, by simp [processData, h0]⟩
  | ok f0 =>
    cases h1 : getField parts 1 with
    | error e => exact ⟨e, by simp [processData, h0, h1]⟩
    | ok f1 =>
      cases h3 : getField parts 3 with
      | error e => exact ⟨e, by simp [processData, h0, h1, h3]⟩
      | ok f3 =>
        by_cases h45 : 4 < parts.length
        · rcases h with hlt | hmiss
          · omega
          · have h4 : getField parts 4 = .ok (parts.getD 4 []) := getField_ok h45
            have hx := extractHaplotypes_err parts hmiss
            exact ⟨.indexError, by simp [processData, h0, h1, h3, h4, hx]⟩
        · have h4 : getField parts 4 = .error .indexError :=
            getField_err (Nat.le_of_not_lt h45)
          exact ⟨.indexError, by simp [processData, h0, h1, h3, h4]⟩

/-- Skipped lines (empty after stripping, or `##` meta lines) in front of a
stream do not affect the loop at all. -/
lemma processLines_skips (pre : List Str) (st : Option (List Nat))
    (h : ∀ l ∈ pre, pyStrip l = [] ∨ "##".data <+: pyStrip l) (ls : List Str) :
    processLines st (pre ++ ls) = processLines st ls := by
  induction pre with
  | nil => rfl
  | cons p ps ih =>
    have hp := stepLine_skip st p (h p (by simp))
    rw [List.cons_append, processLines, hp]
    exact ih (fun l hl => h l (by simp [hl]))

/-- A line whose processing writes a row is a data line, and the row has
the 11 output fields. -/
lemma stepLine_row_isData {st : Option (List Nat)} {l : Str}
    {st2 : Option (List Nat)} {row : List Str}
    (h : stepLine st l = .ok (st2, some row)) :
    isDataLine l = true ∧ row.length = 11 := by
  by_cases hne : pyStrip l = []
  · rw [stepLine_skip st l (Or.inl hne)] at h; simp at h
  · by_cases hm : "##".data <+: pyStrip l
    · rw [stepLine_skip st l (Or.inr hm)] at h; simp at h
    · by_cases hh : "#CHROM".data <+: pyStrip l
      · rw [stepLine_header st l hh] at h
        split at h <;> simp at h
      · rw [stepLine_data st l hne hm hh] at h
        obtain ⟨-, row2, hrow, hlen⟩ := processData_ok_shape h
        refine ⟨by simp [isDataLine, hne, hm, hh, List.isEmpty_iff,
          Bool.eq_false_iff, List.isPrefixOf_iff_prefix], ?_⟩
        simp only [Option.some.injEq] at hrow
        simpa [← hrow] using hlen

/-- A line whose processing writes no row is not a data line. -/
lemma stepLine_none_not_data {st : Option (List Nat)} {l : Str}
    {st2 : Option (List Nat)} (h : stepLine st l = .ok (st2, none)) :
    isDataLine l = false := by
  by_cases hd : isDataLine l = true
  · exfalso
    simp only [isDataLine, Bool.and_eq_true] at hd
    obtain ⟨⟨ha, hb⟩, hc⟩ := hd
    rw [stepLine_data st l (ne_nil_of_bnot ha) (not_prefix_of_bnot hb)
      (not_prefix_of_bnot hc)] at h
    obtain ⟨-, row, hrow, -⟩ := processData_ok_shape h
    simp at hrow
  · simpa using hd

/-- On an error-free stream suffix, the loop writes exactly one row per
data line. -/
lemma processLines_row_count : ∀ (lines : List Str) (st : Option (List Nat))
    (rows : List (List Str)), processLines st lines = (rows, none) →
    rows.length = (lines.filter isDataLine).length := by
  intro lines
  induction lines with
  | nil => intro st rows h; simp [processLines] at h; simp [← h]
  | cons l ls ih =>
    intro st rows h
    rw [processLines] at h
    cases hs : stepLine st l with
    | error e => rw [hs] at h; simp at h
    | ok p =>
      obtain ⟨st2, r⟩ := p
      cases r with
      | none =>
        rw [hs] at h
        simp only at h
        have hd := stepLine_none_not_data hs
        rw [List.filter_cons_of_neg (by simp [hd])]
        exact ih st2 rows h
      | some row =>
        rw [hs] at h
        simp only at h
        cases hpl : processLines st2 ls with
        | mk rows2 err =>
          rw [hpl] at h
          simp only [Prod.mk.injEq] at h
          obtain ⟨hr, he⟩ := h
          have hd := (stepLine_row_isData hs).1
          rw [List.filter_cons_of_pos (by simp [hd])]
          have := ih st2 rows2 (by rw [hpl, he])
          simp [← hr, this]

/-- C1: `compare_genotypes` returns exactly one of the four codes, decided
in precedence order: `'0'` iff both tokens are `"."`; else `'2'` iff exactly
one is `"."`; else `'1'` iff the tokens are equal as text; else `'3'`; and
the five concrete examples from the spec hold. -/
theorem compare_genotypes_four_codes :
    (∀ gt1 gt2 : Str,
      (compare_genotypes gt1 gt2 = ['0'] ↔ (gt1 = ['.'] ∧ gt2 = ['.'])) ∧
      (compare_genotypes gt1 gt2 = ['2'] ↔
        ((gt1 = ['.'] ∨ gt2 = ['.']) ∧ ¬(gt1 = ['.'] ∧ gt2 = ['.']))) ∧
      (compare_genotypes gt1 gt2 = ['1'] ↔
        (gt1 ≠ ['.'] ∧ gt2 ≠ ['.'] ∧ gt1 = gt2)) ∧
      (compare_genotypes gt1 gt2 = ['3'] ↔
        (gt1 ≠ ['.'] ∧ gt2 ≠ ['.'] ∧ gt1 ≠ gt2))) ∧
    compare_genotypes ['.'] ['.'] = ['0'] ∧
    compare_genotypes ['.'] "0/1".data = ['2'] ∧
    compare_genotypes "0/1".data ['.'] = ['2'] ∧
    compare_genotypes "0/1".data "0/1".data = ['1'] ∧
    compare_genotypes "0/1".data "1/1".data = ['3'] := by
  refine ⟨fun gt1 gt2 => ?_, by decide, by decide, by decide, by decide, by decide⟩
  by_cases h1 : gt1 = ['.'] <;> by_cases h2 : gt2 = ['.'] <;>
    by_cases h3 : gt1 = gt2 <;>
    simp [compare_genotypes, h1, h2, h3]

/-- C8: the comparator is symmetric: `compare_genotypes a b` always equals
`compare_genotypes b a`. -/
theorem compare_genotypes_symm (a b : Str) :
    compare_genotypes a b = compare_genotypes b a := by
  by_cases ha : a = ['.'] <;> by_cases hb : b = ['.'] <;>
    by_cases hab : a = b
  all_goals (try subst hab)
  all_goals simp_all [compare_genotypes, and_comm, or_comm, eq_comm]

/-- The loop aborts at the first `#CHROM` header when its sample-column
count (columns at positions 9 and beyond) is not 4, writing no data row
and naming the count in the error. -/
lemma processLines_header_bad (pre : List Str) (hline : Str) (post : List Str)
    (hpre : ∀ l ∈ pre, pyStrip l = [] ∨ "##".data <+: pyStrip l)
    (hh : "#CHROM".data <+: pyStrip hline)
    (hcnt : (pySplit '\t' (pyStrip hline)).length - 9 ≠ 4) :
    processLines none (pre ++ hline :: post) =
      ([], some (.valueError (expectedMsg
        ((pySplit '\t' (pyStrip hline)).length - 9)))) := by
  rw [processLines_skips pre none hpre]
  have hs := stepLine_header none hline hh
  simp only [List.length_range'] at hs
  rw [if_neg hcnt] at hs
  simp [processLines, hs]

/-- Wherever one loop iteration succeeds, the mapping state is either
untouched or (only on a `#CHROM` header line) set to `range(9, 13)`. -/
lemma stepLine_state (st : Option (List Nat)) (l : Str)
    (st2 : Option (List Nat)) (r : Option (List Str))
    (h : stepLine st l = .ok (st2, r)) :
    st2 = st ∨ ("#CHROM".data <+: pyStrip l ∧ st2 = some (List.range' 9 4)) := by
  by_cases hne : pyStrip l = []
  · rw [stepLine_skip st l (Or.inl hne)] at h
    simp at h
    exact Or.inl h.1.symm
  · by_cases hm : "##".data <+: pyStrip l
    · rw [stepLine_skip st l (Or.inr hm)] at h
      simp at h
      exact Or.inl h.1.symm
    · by_cases hh : "#CHROM".data <+: pyStrip l
      · rw [stepLine_header st l hh] at h
        simp only [List.length_range'] at h
        by_cases hc : (pySplit '\t' (pyStrip l)).length - 9 = 4
        · rw [if_pos hc] at h
          simp at h
          refine Or.inr ⟨hh, ?_⟩
          rw [← h.1, hc]
        · rw [if_neg hc] at h
          simp at h
      · rw [stepLine_data st l hne hm hh] at h
        exact Or.inl (processData_ok_shape h).1

/-- C4: for every input whose first `#CHROM` header line carries a number
of columns at positions 9 and beyond different from exactly 4, the run
fails with the fatal configuration `ValueError` naming the actual count
found, and no data row is emitted. -/
theorem header_wrong_count_fails (pre : List Str) (hline : Str) (post : List Str)
    (hpre : ∀ l ∈ pre, pyStrip l = [] ∨ "##".data <+: pyStrip l)
    (hh : "#CHROM".data <+: pyStrip hline)
    (hcnt : (pySplit '\t' (pyStrip hline)).length - 9 ≠ 4) :
    processLines none (pre ++ hline :: post) =
      ([], some (.valueError (expectedMsg
        ((pySplit '\t' (pyStrip hline)).length - 9)))) :=
  processLines_header_bad pre hline post hpre hh hcnt

/-- Witness for C4: a meta line followed by a header with only 3 sample
columns aborts with the count-3 error and emits no data row, even though a
data line follows. -/
theorem header_wrong_count_fails_witness :
    processLines none ["##fileformat=VCFv4.2".data,
      "#CHROM\tPOS\tID\tREF\tALT\tQUAL\tFILTER\tINFO\tFORMAT\tS1\tS2\tS3".data,
      "chr1\t1\t.\tA\tT\t.\t.\t.\t.\t0/0\t0/1\t1/1".data] =
      ([], some (.valueError (expectedMsg 3))) := by
  have h := header_wrong_count_fails ["##fileformat=VCFv4.2".data]
    "#CHROM\tPOS\tID\tREF\tALT\tQUAL\tFILTER\tINFO\tFORMAT\tS1\tS2\tS3".data
    ["chr1\t1\t.\tA\tT\t.\t.\t.\t.\t0/0\t0/1\t1/1".data]
    (by
      intro l hl
      simp at hl
      subst hl
      right
      rw [← List.isPrefixOf_iff_prefix]
      decide)
    (by
      rw [← List.isPrefixOf_iff_prefix]
      decide)
    (by decide)
  exact h.trans (by decide)

/-- C10: on the wrong-sample-count failure path the output already holds
the fixed header row and nothing else, because the header row is written
before the sample-column-count validation. -/
theorem bad_header_output_is_header_row (pre : List Str) (hline : Str)
    (post : List Str)
    (hpre : ∀ l ∈ pre, pyStrip l = [] ∨ "##".data <+: pyStrip l)
    (hh : "#CHROM".data <+: pyStrip hline)
    (hcnt : (pySplit '\t' (pyStrip hline)).length - 9 ≠ 4) :
    run (pre ++ hline :: post) =
      ([outHeader], some (.valueError (expectedMsg
        ((pySplit '\t' (pyStrip hline)).length - 9)))) := by
  have h := processLines_header_bad pre hline post hpre hh hcnt
  simp [run, h]

/-- Witness for C10: with a 5-sample header the whole run yields exactly
the fixed header row plus the count-5 configuration error. -/
theorem bad_header_output_is_header_row_witness :
    run ["#CHROM\tPOS\tID\tREF\tALT\tQUAL\tFILTER\tINFO\tFORMAT\ta\tb\tc\td\te".data,
      "chr1\t1\t.\tA\tT\t.\t.\t.\t.\t0/0\t0/1\t1/1\t0/0\t0/1".data] =
      ([outHeader], some (.valueError (expectedMsg 5))) := by
  have h := bad_header_output_is_header_row []
    "#CHROM\tPOS\tID\tREF\tALT\tQUAL\tFILTER\tINFO\tFORMAT\ta\tb\tc\td\te".data
    ["chr1\t1\t.\tA\tT\t.\t.\t.\t.\t0/0\t0/1\t1/1\t0/0\t0/1".data]
    (by intro l hl; simp at hl)
    (by
      rw [← List.isPrefixOf_iff_prefix]
      decide)
    (by decide)
  exact h.trans (by decide)

/-- C5: the sample-column mapping is recorded only from `#CHROM` header
lines, always with the value `range(9, 13)` (left-to-right order
`[9, 10, 11, 12]`); once it holds that value no successfully processed
line of any class ever changes it, and lines that are empty after
stripping or start with `##` never touch the state at all. -/
theorem mapping_recorded_once_and_kept :
    (∀ (st : Option (List Nat)) (l : Str),
      (pyStrip l = [] ∨ "##".data <+: pyStrip l) → stepLine st l = .ok (st, none)) ∧
    (∀ (l : Str) (st2 : Option (List Nat)) (r : Option (List Str)),
      stepLine (some (List.range' 9 4)) l = .ok (st2, r) →
      st2 = some (List.range' 9 4)) ∧
    (∀ (st : Option (List Nat)) (l : Str) (st2 : Option (List Nat))
      (r : Option (List Str)), stepLine st l = .ok (st2, r) →
      st2 = st ∨ ("#CHROM".data <+: pyStrip l ∧ st2 = some (List.range' 9 4))) ∧
    List.range' 9 4 = [9, 10, 11, 12] := by
  refine ⟨stepLine_skip, ?_, stepLine_state, by decide⟩
  intro l st2 r h
  rcases stepLine_state _ _ _ _ h with h1 | ⟨-, h2⟩
  · rw [h1]
  · exact h2

/-- C6: a data line (nonempty after stripping, not starting with `#`)
reached before any `#CHROM` header aborts the whole run on that line: the
loop stops with an exception, emits no row for it, and processes nothing
after it. -/
theorem data_before_header_fails (pre : List Str) (dline : Str) (post : List Str)
    (hpre : ∀ l ∈ pre, pyStrip l = [] ∨ "##".data <+: pyStrip l)
    (hne : pyStrip dline ≠ [])
    (hnh : ¬ ("#".data <+: pyStrip dline)) :
    ∃ e, processLines none (pre ++ dline :: post) = ([], some e) := by
  have hm : ¬ ("##".data <+: pyStrip dline) := fun hp =>
    hnh (List.IsPrefix.trans ⟨['#'], rfl⟩ hp)
  have hh : ¬ ("#CHROM".data <+: pyStrip dline) := fun hp =>
    hnh (List.IsPrefix.trans ⟨"CHROM".data, rfl⟩ hp)
  rw [processLines_skips pre none hpre]
  obtain ⟨e, he⟩ := processData_none_err (pySplit '\t' (pyStrip dline))
  exact ⟨e, by simp [processLines, stepLine_data none dline hne hm hh, he]⟩

/-- Witness for C6: a data line right after a meta line but before any
header makes the run fail, with a further line left unprocessed. -/
theorem data_before_header_fails_witness :
    ∃ e, processLines none ["##source=test".data,
      "chr1\t100\trs1\tA\tT\t.\t.\t.\tGT\t0/0\t0/1\t1/1\t0/0".data,
      "chr1\t101\trs2\tA\tT\t.\t.\t.\tGT\t0/0\t0/1\t1/1\t0/0".data] =
      ([], some e) :=
  data_before_header_fails ["##source=test".data]
    "chr1\t100\trs1\tA\tT\t.\t.\t.\tGT\t0/0\t0/1\t1/1\t0/0".data
    ["chr1\t101\trs2\tA\tT\t.\t.\t.\tGT\t0/0\t0/1\t1/1\t0/0".data]
    (by
      intro l hl
      simp at hl
      subst hl
      right
      rw [← List.isPrefixOf_iff_prefix]
      decide)
    (by decide)
    (by
      rw [← List.isPrefixOf_iff_prefix]
      decide)

/-- C7: a data line whose tab-split field list misses a required position
(fewer than 5 leading fields, or any recorded sample-column index out of
range) aborts the loop with an exception: no row is emitted for it, it is
not skipped, and no later line is processed. -/
theorem short_data_line_aborts (i1 i2 i3 i4 : Nat) (dline : Str)
    (rest : List Str)
    (hne : pyStrip dline ≠ [])
    (hm : ¬ ("##".data <+: pyStrip dline))
    (hh : ¬ ("#CHROM".data <+: pyStrip dline))
    (hshort : (pySplit '\t' (pyStrip dline)).length < 5 ∨
      ∃ i ∈ [i1, i2, i3, i4], (pySplit '\t' (pyStrip dline)).length ≤ i) :
    ∃ e, processLines (some [i1, i2, i3, i4]) (dline :: rest) = ([], some e) := by
  obtain ⟨e, he⟩ := processData_err_of_missing [i1, i2, i3, i4]
    (pySplit '\t' (pyStrip dline)) hshort
  exact ⟨e, by simp [processLines, stepLine_data _ dline hne hm hh, he]⟩

/-- Witness for C7: after a valid header mapping `[9, 10, 11, 12]`, a
truncated data line with only 9 fields aborts the run without a row. -/
theorem short_data_line_aborts_witness :
    ∃ e, processLines (some [9, 10, 11, 12])
      ["chr1\t100\trs1\tA\tT\t.\t.\t.\tGT".data,
       "chr1\t101\trs2\tA\tT\t.\t.\t.\tGT\t0/0\t0/1\t1/1\t0/0".data] =
      ([], some e) :=
  short_data_line_aborts 9 10 11 12 "chr1\t100\trs1\tA\tT\t.\t.\t.\tGT".data
    ["chr1\t101\trs2\tA\tT\t.\t.\t.\tGT\t0/0\t0/1\t1/1\t0/0".data]
    (by decide)
    (by
      rw [← List.isPrefixOf_iff_prefix]
      decide)
    (by
      rw [← List.isPrefixOf_iff_prefix]
      decide)
    (Or.inr ⟨9, by simp, by decide⟩)

/-- C9: the output always starts with the single fixed header row (the
same literal column names whatever the input), every written row has the
11 fields in the fixed order (11 fields per row, rows only for data
lines), skipped lines (empty after stripping, or `##`) produce no row, and
an error-free run writes exactly one row per data line. -/
theorem output_header_then_one_row_per_data_line :
    (∀ lines, run lines =
      (outHeader :: (processLines none lines).1, (processLines none lines).2)) ∧
    outHeader = ["CHROM".data, "POS".data, "REF.Length".data, "ALT.Length".data,
      "DELTA.Length".data, "h1_h2".data, "h1_h3".data, "h1_h4".data,
      "h2_h3".data, "h2_h4".data, "h3_h4".data] ∧
    (∀ (st : Option (List Nat)) (l : Str),
      (pyStrip l = [] ∨ "##".data <+: pyStrip l) → stepLine st l = .ok (st, none)) ∧
    (∀ (st : Option (List Nat)) (l : Str) (st2 : Option (List Nat))
      (row : List Str), stepLine st l = .ok (st2, some row) →
      isDataLine l = true ∧ row.length = 11) ∧
    (∀ (lines : List Str) (st : Option (List Nat)) (rows : List (List Str)),
      processLines st lines = (rows, none) →
      rows.length = (lines.filter isDataLine).length) := by
  refine ⟨fun lines => ?_, rfl, stepLine_skip,
    fun st l st2 row h => stepLine_row_isData h,
    fun lines st rows h => processLines_row_count lines st rows h⟩
  cases hp : processLines none lines with
  | mk rows err => simp [run, hp]

/-- C2: on a data line processed with recorded sample indices
`[i1, i2, i3, i4]` (all present, and the five leading fields present), the
last six fields of the written row are `compare_genotypes` applied to the
pairs (h1,h2), (h1,h3), (h1,h4), (h2,h3), (h2,h4), (h3,h4) in exactly this
order, where each `hk` is the first colon-delimited subfield of the
recorded sample-column field, in recorded left-to-right order. -/
theorem data_row_six_codes_in_order (i1 i2 i3 i4 : Nat) (l : Str)
    (hd : isDataLine l = true)
    (h5 : 5 ≤ (pySplit '\t' (pyStrip l)).length)
    (hi1 : i1 < (pySplit '\t' (pyStrip l)).length)
    (hi2 : i2 < (pySplit '\t' (pyStrip l)).length)
    (hi3 : i3 < (pySplit '\t' (pyStrip l)).length)
    (hi4 : i4 < (pySplit '\t' (pyStrip l)).length) :
    stepLine (some [i1, i2, i3, i4]) l =
      .ok (some [i1, i2, i3, i4],
        some (mkRow (pySplit '\t' (pyStrip l)) i1 i2 i3 i4)) ∧
    (mkRow (pySplit '\t' (pyStrip l)) i1 i2 i3 i4).drop 5 =
      [compare_genotypes (gtAt (pySplit '\t' (pyStrip l)) i1)
         (gtAt (pySplit '\t' (pyStrip l)) i2),
       compare_genotypes (gtAt (pySplit '\t' (pyStrip l)) i1)
         (gtAt (pySplit '\t' (pyStrip l)) i3),
       compare_genotypes (gtAt (pySplit '\t' (pyStrip l)) i1)
         (gtAt (pySplit '\t' (pyStrip l)) i4),
       compare_genotypes (gtAt (pySplit '\t' (pyStrip l)) i2)
         (gtAt (pySplit '\t' (pyStrip l)) i3),
       compare_genotypes (gtAt (pySplit '\t' (pyStrip l)) i2)
         (gtAt (pySplit '\t' (pyStrip l)) i4),
       compare_genotypes (gtAt (pySplit '\t' (pyStrip l)) i3)
         (gtAt (pySplit '\t' (pyStrip l)) i4)] := by
  simp only [isDataLine, Bool.and_eq_true] at hd
  obtain ⟨⟨ha, hb⟩, hc⟩ := hd
  refine ⟨?_, rfl⟩
  rw [stepLine_data _ l (ne_nil_of_bnot ha) (not_prefix_of_bnot hb)
    (not_prefix_of_bnot hc)]
  exact processData_ok _ i1 i2 i3 i4 h5 hi1 hi2 hi3 hi4

/-- Witness for C2: the spec's end-to-end example line with genotypes
`0/0`, `0/1`, `.`, `0/0` yields codes 3, 2, 1, 2, 3, 2 in that order. -/
theorem data_row_six_codes_in_order_witness :
    stepLine (some [9, 10, 11, 12])
      "chr22\t200\tid1\tA\tA,TT\t50\tPASS\tinfo\tGT\t0/0:31\t0/1\t.\t0/0".data =
      .ok (some [9, 10, 11, 12],
        some ["chr22".data, "200".data, "1".data, "1,2".data, "1".data,
          ['3'], ['2'], ['1'], ['2'], ['3'], ['2']]) := by
  have h := (data_row_six_codes_in_order 9 10 11 12
    "chr22\t200\tid1\tA\tA,TT\t50\tPASS\tinfo\tGT\t0/0:31\t0/1\t.\t0/0".data
    (by decide) (by decide) (by decide) (by decide) (by decide) (by decide)).1
  exact h.trans (by rfl)

/-- C3: on a processed data line the written row's REF.Length field is the
decimal character count of field 3, its ALT.Length field is the
comma-joined decimal lengths of the comma-separated alleles of field 4 in
original order, and its DELTA.Length field is the signed difference
between the maximum alternate-allele length and the reference length. -/
theorem data_row_length_fields (i1 i2 i3 i4 : Nat) (l : Str)
    (hd : isDataLine l = true)
    (h5 : 5 ≤ (pySplit '\t' (pyStrip l)).length)
    (hi1 : i1 < (pySplit '\t' (pyStrip l)).length)
    (hi2 : i2 < (pySplit '\t' (pyStrip l)).length)
    (hi3 : i3 < (pySplit '\t' (pyStrip l)).length)
    (hi4 : i4 < (pySplit '\t' (pyStrip l)).length) :
    stepLine (some [i1, i2, i3, i4]) l =
      .ok (some [i1, i2, i3, i4],
        some (mkRow (pySplit '\t' (pyStrip l)) i1 i2 i3 i4)) ∧
    (mkRow (pySplit '\t' (pyStrip l)) i1 i2 i3 i4).getD 2 [] =
      (Nat.repr ((pySplit '\t' (pyStrip l)).getD 3 []).length).data ∧
    (mkRow (pySplit '\t' (pyStrip l)) i1 i2 i3 i4).getD 3 [] =
      List.intercalate [',']
        ((altLengthsOf ((pySplit '\t' (pyStrip l)).getD 4 [])).map
          (fun n => (Nat.repr n).data)) ∧
    (mkRow (pySplit '\t' (pyStrip l)) i1 i2 i3 i4).getD 4 [] =
      (Int.repr ((maxOfList (altLengthsOf ((pySplit '\t' (pyStrip l)).getD 4 [])) : Int) -
        (((pySplit '\t' (pyStrip l)).getD 3 []).length : Int))).data := by
  simp only [isDataLine, Bool.and_eq_true] at hd
  obtain ⟨⟨ha, hb⟩, hc⟩ := hd
  refine ⟨?_, rfl, rfl, rfl⟩
  rw [stepLine_data _ l (ne_nil_of_bnot ha) (not_prefix_of_bnot hb)
    (not_prefix_of_bnot hc)]
  exact processData_ok _ i1 i2 i3 i4 h5 hi1 hi2 hi3 hi4

/-- Witness for C3: REF `A` with ALT `A,TT` gives lengths 1, "1,2" and
delta +1; REF `AAA` with ALT `A` gives 3, "1" and delta -2 (negative,
printed with a sign). -/
theorem data_row_length_fields_witness :
    stepLine (some [9, 10, 11, 12])
      "chr1\t100\t.\tA\tA,TT\t.\t.\t.\tGT\t0/1\t0/1\t0/1\t0/1".data =
      .ok (some [9, 10, 11, 12],
        some ["chr1".data, "100".data, "1".data, "1,2".data, "1".data,
          ['1'], ['1'], ['1'], ['1'], ['1'], ['1']]) ∧
    stepLine (some [9, 10, 11, 12])
      "chr2\t300\t.\tAAA\tA\t.\t.\t.\tGT\t0/1\t0/1\t0/1\t0/1".data =
      .ok (some [9, 10, 11, 12],
        some ["chr2".data, "300".data, "3".data, "1".data, "-2".data,
          ['1'], ['1'], ['1'], ['1'], ['1'], ['1']]) := by
  constructor
  · have h := (data_row_length_fields 9 10 11 12
      "chr1\t100\t.\tA\tA,TT\t.\t.\t.\tGT\t0/1\t0/1\t0/1\t0/1".data
      (by decide) (by decide) (by decide) (by decide) (by decide) (by decide)).1
    exact h.trans (by rfl)
  · have h := (data_row_length_fields 9 10 11 12
      "chr2\t300\t.\tAAA\tA\t.\t.\t.\tGT\t0/1\t0/1\t0/1\t0/1".data
      (by decide) (by decide) (by decide) (by decide) (by decide) (by decide)).1
    exact h.trans (by rfl)
